import Mathlib

/-!
Verification of the drowsiness-detection core (`detection.py`).

The repository's core is a per-frame state machine (`DrowsinessDetector.process_frame`)
plus two pure signal extractors (`calculate_ear`, `calculate_mar`).

Embedding choices:
* The state machine consumes the two scalar signals (`ear`, `mar`) and the current
  wall-clock time once per frame.  Signals are rationals (`ℚ`, written with `mkRat`
  so that concrete runs reduce in the kernel); wall-clock times are integers (`ℤ`,
  whole seconds — every time constant of the source is a whole number of seconds,
  so `YAWN_TIME_WINDOW = timedelta(minutes=30)` becomes `1800` and
  `YAWN_ALERT_COOLDOWN = timedelta(minutes=10)` becomes `600`).
* `process_frame` is decomposed into the same sequential blocks as the source:
  EAR logic (lines 112-119), MAR/yawn-count logic (lines 121-132), pruning of
  `yawn_timestamps` (line 135), yawn-alert handling (lines 142-158) and the final
  label combination (lines 160-168).  The intermediate `alert_text` assignments at
  lines 116 and 151 are dead stores for the returned value, because the final label
  block assigns `alert_text` in all four cases; only the final block is modelled.
* The signal extractors work on the integer pixel landmarks the source builds at
  line 101 (`(int(p.x * w), int(p.y * h))`); Euclidean distances live in `ℝ`.
* File logging and printing are side effects with no influence on the returned
  values or the detector state, and are not modelled.
-/

/-- Source constant `EAR_THRESHOLD = 0.25` (detection.py line 23). -/
def EAR_THRESHOLD : ℚ := mkRat 1 4

/-- Source constant `MAR_THRESHOLD = 0.6` (detection.py line 24). -/
def MAR_THRESHOLD : ℚ := mkRat 3 5

/-- Source constant `CONSEC_EYE_FRAMES = 50` (detection.py line 25). -/
def CONSEC_EYE_FRAMES : ℕ := 50

/-- Source constant `YAWN_CONSEC_FRAMES = 15` (detection.py line 26). -/
def YAWN_CONSEC_FRAMES : ℕ := 15

/-- Source constant `YAWN_TIME_WINDOW = timedelta(minutes=30)`, in seconds (detection.py line 27). -/
def YAWN_TIME_WINDOW : ℤ := 1800

/-- Source constant `YAWN_ALERT_COOLDOWN = timedelta(minutes=10)`, in seconds (detection.py line 28). -/
def YAWN_ALERT_COOLDOWN : ℤ := 600

/-- Sanity check tying the `mkRat` constants to the source's decimal literals. -/
theorem thresholds_eq : EAR_THRESHOLD = 1/4 ∧ MAR_THRESHOLD = 3/5 := by
  constructor <;> norm_num [EAR_THRESHOLD, MAR_THRESHOLD, Rat.mkRat_eq_div]

/-- The mutable fields of `DrowsinessDetector` set up in `__init__`
(detection.py lines 32-37).  Timestamps are integers (seconds). -/
structure DetectorState where
  eye_counter : ℕ
  yawn_frame_counter : ℕ
  yawn_timestamps : List ℤ
  ear_alert_active : Bool
  yawn_alert_active : Bool
  last_yawn_alert_time : Option ℤ
deriving DecidableEq

/-- The state built by `DrowsinessDetector.__init__`. -/
def initState : DetectorState :=
  { eye_counter := 0
    yawn_frame_counter := 0
    yawn_timestamps := []
    ear_alert_active := false
    yawn_alert_active := false
    last_yawn_alert_time := none }

/-- Per-frame input: either no face was found, or a face with the two derived
signals (the whole-face eye ratio and the mouth ratio). -/
inductive FrameInput where
  | noFace : FrameInput
  | face (ear mar : ℚ) : FrameInput
deriving DecidableEq

/-- The `(ear, mar, alert_text)` triple returned by `process_frame`
(detection.py line 171; the opaque MediaPipe result is not modelled). -/
structure FrameOutput where
  ear : Option ℚ
  mar : Option ℚ
  alert_text : String
deriving DecidableEq

/-- EAR (eye-drowsiness) logic, detection.py lines 112-119: below threshold the
counter is incremented and the alert flag is raised once the counter reaches
`CONSEC_EYE_FRAMES`; at or above threshold both are reset. -/
def earUpdate (s : DetectorState) (ear : ℚ) : DetectorState :=
  if ear < EAR_THRESHOLD then
    { s with
        eye_counter := s.eye_counter + 1,
        ear_alert_active :=
          if s.eye_counter + 1 ≥ CONSEC_EYE_FRAMES then true else s.ear_alert_active }
  else
    { s with eye_counter := 0, ear_alert_active := false }

/-- MAR (yawn) logic, detection.py lines 121-132: an open mouth increments the
run counter; a closed mouth appends `current_time` to `yawn_timestamps` when the
run was long enough and resets the counter unconditionally. -/
def yawnCountUpdate (s : DetectorState) (mar : ℚ) (current_time : ℤ) : DetectorState :=
  if mar > MAR_THRESHOLD then
    { s with yawn_frame_counter := s.yawn_frame_counter + 1 }
  else
    { s with
        yawn_timestamps :=
          if s.yawn_frame_counter ≥ YAWN_CONSEC_FRAMES then
            s.yawn_timestamps ++ [current_time]
          else
            s.yawn_timestamps,
        yawn_frame_counter := 0 }

/-- Pruning, detection.py line 135: keep only timestamps within
`YAWN_TIME_WINDOW` of `current_time`. -/
def pruneTimestamps (s : DetectorState) (current_time : ℤ) : DetectorState :=
  { s with
      yawn_timestamps :=
        s.yawn_timestamps.filter (fun t => decide (current_time - t ≤ YAWN_TIME_WINDOW)) }

/-- Yawn-alert handling, detection.py lines 142-158: with more than 3 surviving
timestamps the alert fires unless gated by the cooldown; otherwise the flag is
cleared. -/
def yawnAlertUpdate (s : DetectorState) (current_time : ℤ) : DetectorState :=
  if s.yawn_timestamps.length > 3 then
    match s.last_yawn_alert_time with
    | none =>
        { s with yawn_alert_active := true, last_yawn_alert_time := some current_time }
    | some last =>
        if current_time - last > YAWN_ALERT_COOLDOWN then
          { s with yawn_alert_active := true, last_yawn_alert_time := some current_time }
        else
          { s with yawn_alert_active := false }
  else
    { s with yawn_alert_active := false }

/-- Label combination, detection.py lines 160-168. -/
def alertLabel (s : DetectorState) : String :=
  if s.ear_alert_active && s.yawn_alert_active then "DROWSINESS DETECTED (EYES & YAWNS)"
  else if s.ear_alert_active then "DROWSINESS DETECTED (EYES)"
  else if s.yawn_alert_active then "DROWSINESS DETECTED (YAWNS)"
  else ""

/-- The method `DrowsinessDetector.process_frame` (detection.py lines 86-171), from the frame
signals on: with no face the state is untouched and the output is
`(None, None, "")`; with a face the four state-update blocks run in source order
and the label is computed from the post-update flags. -/
def process_frame (s : DetectorState) (input : FrameInput) (current_time : ℤ) :
    DetectorState × FrameOutput :=
  match input with
  | .noFace => (s, { ear := none, mar := none, alert_text := "" })
  | .face ear mar =>
      let s4 := yawnAlertUpdate
        (pruneTimestamps (yawnCountUpdate (earUpdate s ear) mar current_time) current_time)
        current_time
      (s4, { ear := some ear, mar := some mar, alert_text := alertLabel s4 })

/-- The detector state after one face frame. -/
def stepFace (s : DetectorState) (ear mar : ℚ) (current_time : ℤ) : DetectorState :=
  (process_frame s (.face ear mar) current_time).1

/-- The returned output of one face frame. -/
def stepOut (s : DetectorState) (ear mar : ℚ) (current_time : ℤ) : FrameOutput :=
  (process_frame s (.face ear mar) current_time).2

/-- Drive the detector through a list of frames, each `(input, current_time)`. -/
def runFrames (s : DetectorState) (frames : List (FrameInput × ℤ)) : DetectorState :=
  frames.foldl (fun acc p => (process_frame acc p.1 p.2).1) s

/-- Drive the detector through a list of face frames, each `(ear, mar, current_time)`. -/
def runFaceFrames (s : DetectorState) (frames : List (ℚ × ℚ × ℤ)) : DetectorState :=
  frames.foldl (fun acc f => stepFace acc f.1 f.2.1 f.2.2) s

/-- A state is reachable when some frame sequence leads to it from the
freshly-constructed detector. -/
def Reachable (s : DetectorState) : Prop :=
  ∃ frames : List (FrameInput × ℤ), runFrames initState frames = s

/-! ### Field-preservation lemmas

Each update block of `process_frame` only writes its own fields; these lemmas
record which fields pass through each block untouched. -/

theorem yawnCountUpdate_eye_counter (s : DetectorState) (mar : ℚ) (current_time : ℤ) :
    (yawnCountUpdate s mar current_time).eye_counter = s.eye_counter := by
  unfold yawnCountUpdate; split <;> rfl

theorem yawnCountUpdate_ear_alert (s : DetectorState) (mar : ℚ) (current_time : ℤ) :
    (yawnCountUpdate s mar current_time).ear_alert_active = s.ear_alert_active := by
  unfold yawnCountUpdate; split <;> rfl

theorem pruneTimestamps_eye_counter (s : DetectorState) (current_time : ℤ) :
    (pruneTimestamps s current_time).eye_counter = s.eye_counter := rfl

theorem pruneTimestamps_ear_alert (s : DetectorState) (current_time : ℤ) :
    (pruneTimestamps s current_time).ear_alert_active = s.ear_alert_active := rfl

theorem pruneTimestamps_yawn_frame_counter (s : DetectorState) (current_time : ℤ) :
    (pruneTimestamps s current_time).yawn_frame_counter = s.yawn_frame_counter := rfl

theorem pruneTimestamps_last_yawn_alert_time (s : DetectorState) (current_time : ℤ) :
    (pruneTimestamps s current_time).last_yawn_alert_time = s.last_yawn_alert_time := rfl

theorem yawnAlertUpdate_eye_counter (s : DetectorState) (current_time : ℤ) :
    (yawnAlertUpdate s current_time).eye_counter = s.eye_counter := by
  unfold yawnAlertUpdate
  split
  · match h : s.last_yawn_alert_time with
    | none => rfl
    | some last => dsimp only; split <;> rfl
  · rfl

theorem yawnAlertUpdate_ear_alert (s : DetectorState) (current_time : ℤ) :
    (yawnAlertUpdate s current_time).ear_alert_active = s.ear_alert_active := by
  unfold yawnAlertUpdate
  split
  · match h : s.last_yawn_alert_time with
    | none => rfl
    | some last => dsimp only; split <;> rfl
  · rfl

theorem yawnAlertUpdate_yawn_timestamps (s : DetectorState) (current_time : ℤ) :
    (yawnAlertUpdate s current_time).yawn_timestamps = s.yawn_timestamps := by
  unfold yawnAlertUpdate
  split
  · match h : s.last_yawn_alert_time with
    | none => rfl
    | some last => dsimp only; split <;> rfl
  · rfl

theorem yawnAlertUpdate_yawn_frame_counter (s : DetectorState) (current_time : ℤ) :
    (yawnAlertUpdate s current_time).yawn_frame_counter = s.yawn_frame_counter := by
  unfold yawnAlertUpdate
  split
  · match h : s.last_yawn_alert_time with
    | none => rfl
    | some last => dsimp only; split <;> rfl
  · rfl

theorem earUpdate_yawn_frame_counter (s : DetectorState) (ear : ℚ) :
    (earUpdate s ear).yawn_frame_counter = s.yawn_frame_counter := by
  unfold earUpdate; split <;> rfl

theorem earUpdate_yawn_timestamps (s : DetectorState) (ear : ℚ) :
    (earUpdate s ear).yawn_timestamps = s.yawn_timestamps := by
  unfold earUpdate; split <;> rfl

theorem earUpdate_last_yawn_alert_time (s : DetectorState) (ear : ℚ) :
    (earUpdate s ear).last_yawn_alert_time = s.last_yawn_alert_time := by
  unfold earUpdate; split <;> rfl

theorem yawnCountUpdate_last_yawn_alert_time (s : DetectorState) (mar : ℚ) (current_time : ℤ) :
    (yawnCountUpdate s mar current_time).last_yawn_alert_time = s.last_yawn_alert_time := by
  unfold yawnCountUpdate; split <;> rfl

/-- The eye fields of the post-frame state are exactly those produced by the
EAR block: the later blocks never write them. -/
theorem stepFace_eye_fields (s : DetectorState) (e m : ℚ) (t : ℤ) :
    (stepFace s e m t).eye_counter = (earUpdate s e).eye_counter ∧
      (stepFace s e m t).ear_alert_active = (earUpdate s e).ear_alert_active := by
  unfold stepFace process_frame
  refine ⟨?_, ?_⟩
  · rw [yawnAlertUpdate_eye_counter, pruneTimestamps_eye_counter, yawnCountUpdate_eye_counter]
  · rw [yawnAlertUpdate_ear_alert, pruneTimestamps_ear_alert, yawnCountUpdate_ear_alert]

/-- The post-frame `yawn_timestamps` list is the pruned version of the list
produced by the yawn-count block. -/
theorem stepFace_yawn_timestamps (s : DetectorState) (e m : ℚ) (t : ℤ) :
    (stepFace s e m t).yawn_timestamps =
      (yawnCountUpdate (earUpdate s e) m t).yawn_timestamps.filter
        (fun u => decide (t - u ≤ YAWN_TIME_WINDOW)) := by
  unfold stepFace process_frame
  rw [yawnAlertUpdate_yawn_timestamps]
  rfl

/-! ### The EAR-alert invariant and the below-threshold run analysis -/

/-- The eye-alert flag always equals "the counter has reached the threshold". -/
def EarInv (s : DetectorState) : Prop :=
  s.ear_alert_active = decide (CONSEC_EYE_FRAMES ≤ s.eye_counter)

theorem earUpdate_preserves_EarInv (s : DetectorState) (ear : ℚ) (h : EarInv s) :
    EarInv (earUpdate s ear) := by
  unfold EarInv at h ⊢
  unfold earUpdate
  split
  · show (if s.eye_counter + 1 ≥ CONSEC_EYE_FRAMES then true else s.ear_alert_active) =
      decide (CONSEC_EYE_FRAMES ≤ s.eye_counter + 1)
    by_cases h50 : s.eye_counter + 1 ≥ CONSEC_EYE_FRAMES
    · rw [if_pos h50, decide_eq_true h50]
    · rw [if_neg h50, h]
      exact decide_eq_decide.mpr (by omega)
  · show (false : Bool) = decide (CONSEC_EYE_FRAMES ≤ 0)
    decide

theorem process_frame_preserves_EarInv (s : DetectorState) (input : FrameInput)
    (current_time : ℤ) (h : EarInv s) : EarInv (process_frame s input current_time).1 := by
  cases input with
  | noFace => exact h
  | face e m =>
      have hf := stepFace_eye_fields s e m current_time
      unfold EarInv
      have h1 : (process_frame s (.face e m) current_time).1 = stepFace s e m current_time := rfl
      rw [h1, hf.1, hf.2]
      exact earUpdate_preserves_EarInv s e h

theorem runFrames_preserves_EarInv (frames : List (FrameInput × ℤ)) :
    ∀ s : DetectorState, EarInv s → EarInv (runFrames s frames) := by
  induction frames with
  | nil => exact fun s h => h
  | cons f rest ih =>
      exact fun s h => ih _ (process_frame_preserves_EarInv s f.1 f.2 h)

/-- One below-threshold face frame: the counter increments and the flag is raised
exactly when the incremented counter reaches the threshold (otherwise kept). -/
theorem stepFace_below_ear (s : DetectorState) (e m : ℚ) (t : ℤ) (h : e < EAR_THRESHOLD) :
    (stepFace s e m t).eye_counter = s.eye_counter + 1 ∧
      (stepFace s e m t).ear_alert_active =
        (decide (CONSEC_EYE_FRAMES ≤ s.eye_counter + 1) || s.ear_alert_active) := by
  have hf := stepFace_eye_fields s e m t
  constructor
  · rw [hf.1]; unfold earUpdate; rw [if_pos h]
  · rw [hf.2]; unfold earUpdate; rw [if_pos h]
    show (if s.eye_counter + 1 ≥ CONSEC_EYE_FRAMES then true else s.ear_alert_active) = _
    by_cases h50 : s.eye_counter + 1 ≥ CONSEC_EYE_FRAMES
    · rw [if_pos h50, decide_eq_true h50, Bool.true_or]
    · rw [if_neg h50, decide_eq_false h50, Bool.false_or]

/-- One at-or-above-threshold face frame resets the counter and the flag. -/
theorem stepFace_above_ear (s : DetectorState) (e m : ℚ) (t : ℤ) (h : EAR_THRESHOLD ≤ e) :
    (stepFace s e m t).eye_counter = 0 ∧
      (stepFace s e m t).ear_alert_active = false := by
  have hf := stepFace_eye_fields s e m t
  have hne : ¬ (e < EAR_THRESHOLD) := not_lt.mpr h
  constructor
  · rw [hf.1]; unfold earUpdate; rw [if_neg hne]
  · rw [hf.2]; unfold earUpdate; rw [if_neg hne]

/-- Running any number of below-threshold face frames adds their count to the
eye counter, and raises the flag exactly when a nonempty run pushes the counter
to the threshold. -/
theorem runFaceFrames_below (frames : List (ℚ × ℚ × ℤ)) :
    ∀ s : DetectorState, (∀ f ∈ frames, f.1 < EAR_THRESHOLD) →
      (runFaceFrames s frames).eye_counter = s.eye_counter + frames.length ∧
        (runFaceFrames s frames).ear_alert_active =
          (s.ear_alert_active ||
            (decide (1 ≤ frames.length) &&
              decide (CONSEC_EYE_FRAMES ≤ s.eye_counter + frames.length))) := by
  induction frames with
  | nil =>
      intro s _
      constructor
      · rfl
      · show s.ear_alert_active = (s.ear_alert_active || (decide (1 ≤ 0) && _))
        rw [decide_eq_false (by omega : ¬ (1:ℕ) ≤ 0), Bool.false_and, Bool.or_false]
  | cons f rest ih =>
      intro s hb
      have hf : f.1 < EAR_THRESHOLD := hb f (List.mem_cons_self f rest)
      have hrest : ∀ g ∈ rest, g.1 < EAR_THRESHOLD :=
        fun g hg => hb g (List.mem_cons_of_mem f hg)
      have hstep := stepFace_below_ear s f.1 f.2.1 f.2.2 hf
      have hrun := ih (stepFace s f.1 f.2.1 f.2.2) hrest
      have hrw : runFaceFrames s (f :: rest) =
          runFaceFrames (stepFace s f.1 f.2.1 f.2.2) rest := rfl
      rw [hrw]
      constructor
      · rw [hrun.1, hstep.1, List.length_cons]; omega
      · rw [hrun.2, hstep.2, hstep.1, List.length_cons]
        have harith : s.eye_counter + (rest.length + 1) = s.eye_counter + 1 + rest.length := by
          omega
        rw [harith, decide_eq_true (by omega : (1:ℕ) ≤ rest.length + 1), Bool.true_and]
        by_cases h1 : CONSEC_EYE_FRAMES ≤ s.eye_counter + 1
        · have h2 : CONSEC_EYE_FRAMES ≤ s.eye_counter + 1 + rest.length := by omega
          rw [decide_eq_true h1, decide_eq_true h2, Bool.true_or, Bool.true_or]
          cases decide (1 ≤ rest.length) <;> cases s.ear_alert_active <;> rfl
        · rw [decide_eq_false h1, Bool.false_or]
          by_cases h2 : CONSEC_EYE_FRAMES ≤ s.eye_counter + 1 + rest.length
          · have h3 : 1 ≤ rest.length := by
              rcases Nat.eq_zero_or_pos rest.length with h0 | h0
              · omega
              · exact h0
            rw [decide_eq_true h2, decide_eq_true h3, Bool.true_and, Bool.or_true]
          · rw [decide_eq_false h2, Bool.and_false, Bool.or_false]

/-- Claim C10: in every reachable detector state the eye-alert flag is true
exactly when `eye_counter` has reached `CONSEC_EYE_FRAMES` (50); the flag can
never be true while the counter is below the threshold. -/
theorem ear_alert_iff_counter (s : DetectorState) (h : Reachable s) :
    s.ear_alert_active = true ↔ CONSEC_EYE_FRAMES ≤ s.eye_counter := by
  obtain ⟨frames, rfl⟩ := h
  have hinv : EarInv (runFrames initState frames) :=
    runFrames_preserves_EarInv frames initState rfl
  unfold EarInv at hinv
  rw [hinv, decide_eq_true_eq]

/-- Witness for C10 at the freshly-constructed detector. -/
theorem ear_alert_iff_counter_witness :
    (initState.ear_alert_active = true ↔ CONSEC_EYE_FRAMES ≤ initState.eye_counter) :=
  ear_alert_iff_counter initState ⟨[], rfl⟩

/-- Claim C1: over any run of below-threshold face frames started from a reset
state, the eye alert is inactive strictly before the 50th frame of the run,
becomes active exactly on the 50th and stays active on every later
below-threshold frame; the first at-or-above-threshold face frame resets the
flag and the counter; and 49 below-threshold frames followed by one frame at or
above threshold never activate the alert. -/
theorem ear_alert_run_behavior (s : DetectorState)
    (hc : s.eye_counter = 0) (ha : s.ear_alert_active = false)
    (frames : List (ℚ × ℚ × ℤ)) (hb : ∀ f ∈ frames, f.1 < EAR_THRESHOLD) :
    (∀ i, i ≤ frames.length →
        (runFaceFrames s (frames.take i)).ear_alert_active = decide (CONSEC_EYE_FRAMES ≤ i)) ∧
      (∀ e m t, EAR_THRESHOLD ≤ e →
          (stepFace (runFaceFrames s frames) e m t).ear_alert_active = false ∧
            (stepFace (runFaceFrames s frames) e m t).eye_counter = 0) ∧
      (∀ i, i ≤ 50 →
          (runFaceFrames initState
              ((List.replicate 49 (mkRat 1 10, (0:ℚ), (0:ℤ)) ++
                [(mkRat 2 5, (0:ℚ), (0:ℤ))]).take i)).ear_alert_active = false) := by
  refine ⟨?_, ?_, ?_⟩
  · intro i hi
    have hbt : ∀ f ∈ frames.take i, f.1 < EAR_THRESHOLD :=
      fun f hf => hb f (List.mem_of_mem_take hf)
    have hrun := runFaceFrames_below (frames.take i) s hbt
    have hlen : (frames.take i).length = i := by
      rw [List.length_take]; omega
    rw [hrun.2, ha, hc, hlen, Bool.false_or]
    by_cases h50 : CONSEC_EYE_FRAMES ≤ i
    · have h50n : (50:ℕ) ≤ i := h50
      have h1 : (1:ℕ) ≤ i := by omega
      rw [decide_eq_true h50, decide_eq_true (show CONSEC_EYE_FRAMES ≤ 0 + i by omega),
        decide_eq_true h1, Bool.true_and]
    · rw [decide_eq_false h50,
        decide_eq_false (show ¬ CONSEC_EYE_FRAMES ≤ 0 + i by omega), Bool.and_false]
  · intro e m t he
    exact ⟨(stepFace_above_ear _ e m t he).2, (stepFace_above_ear _ e m t he).1⟩
  · intro i hi
    by_cases h49 : i ≤ 49
    · rw [List.take_append_of_le_length (by rw [List.length_replicate]; omega),
        List.take_replicate]
      have hmin : min i 49 = i := by omega
      rw [hmin]
      have hbt : ∀ f ∈ List.replicate i (mkRat 1 10, (0:ℚ), (0:ℤ)), f.1 < EAR_THRESHOLD := by
        intro f hf
        rw [List.eq_of_mem_replicate hf]
        show mkRat 1 10 < EAR_THRESHOLD
        decide
      have hrun := runFaceFrames_below (List.replicate i (mkRat 1 10, (0:ℚ), (0:ℤ)))
        initState hbt
      rw [hrun.2, List.length_replicate,
        show initState.ear_alert_active = false from rfl, Bool.false_or,
        show initState.eye_counter = 0 from rfl,
        decide_eq_false (show ¬ CONSEC_EYE_FRAMES ≤ 0 + i by
          show ¬ (50:ℕ) ≤ 0 + i; omega), Bool.and_false]
    · have hi50 : i = 50 := by omega
      subst hi50
      rw [List.take_of_length_le (by
        rw [List.length_append, List.length_replicate]
        simp)]
      have happ : runFaceFrames initState
          (List.replicate 49 (mkRat 1 10, (0:ℚ), (0:ℤ)) ++ [(mkRat 2 5, (0:ℚ), (0:ℤ))]) =
          stepFace (runFaceFrames initState (List.replicate 49 (mkRat 1 10, (0:ℚ), (0:ℤ))))
            (mkRat 2 5) 0 0 := by
        unfold runFaceFrames
        rw [List.foldl_append]
        rfl
      rw [happ]
      exact (stepFace_above_ear _ _ _ _ (by decide)).2

/-- Witness for C1: 50 below-threshold frames from the fresh detector leave the
flag equal to `decide (50 ≤ 50) = true`. -/
theorem ear_alert_run_behavior_witness :
    (runFaceFrames initState
        ((List.replicate 50 (mkRat 1 10, (0:ℚ), (0:ℤ))).take 50)).ear_alert_active =
      decide (CONSEC_EYE_FRAMES ≤ 50) :=
  (ear_alert_run_behavior initState rfl rfl
      (List.replicate 50 (mkRat 1 10, (0:ℚ), (0:ℤ))) (by decide)).1 50 (by decide)

/-! ### Yawn-side lemmas and claims -/

/-- The yawn-alert block fires (and stamps the time) when more than 3 timestamps
survive and the cooldown does not block. -/
theorem yawnAlertUpdate_fires (s : DetectorState) (t : ℤ)
    (hlen : s.yawn_timestamps.length > 3)
    (hcool : s.last_yawn_alert_time = none ∨
      ∃ last, s.last_yawn_alert_time = some last ∧ YAWN_ALERT_COOLDOWN < t - last) :
    (yawnAlertUpdate s t).yawn_alert_active = true ∧
      (yawnAlertUpdate s t).last_yawn_alert_time = some t := by
  unfold yawnAlertUpdate
  rw [if_pos hlen]
  rcases hcool with hn | ⟨last, hsome, hlt⟩
  · rw [hn]
    exact ⟨rfl, rfl⟩
  · rw [hsome]
    dsimp only
    rw [if_pos hlt]
    exact ⟨rfl, rfl⟩

/-- The yawn-alert block is blocked by the cooldown: the flag is cleared and the
last-alert time is left unchanged. -/
theorem yawnAlertUpdate_blocked (s : DetectorState) (t last : ℤ)
    (hlen : s.yawn_timestamps.length > 3)
    (hsome : s.last_yawn_alert_time = some last)
    (hle : t - last ≤ YAWN_ALERT_COOLDOWN) :
    (yawnAlertUpdate s t).yawn_alert_active = false ∧
      (yawnAlertUpdate s t).last_yawn_alert_time = some last := by
  unfold yawnAlertUpdate
  rw [if_pos hlen, hsome]
  dsimp only
  rw [if_neg (not_lt.mpr hle)]
  exact ⟨rfl, rfl⟩

/-- With at most 3 surviving timestamps the yawn flag is cleared. -/
theorem yawnAlertUpdate_few (s : DetectorState) (t : ℤ)
    (hlen : ¬ s.yawn_timestamps.length > 3) :
    (yawnAlertUpdate s t).yawn_alert_active = false := by
  unfold yawnAlertUpdate
  rw [if_neg hlen]

/-- The last-alert time is untouched by the blocks before the yawn-alert block. -/
theorem preAlert_last_time (s : DetectorState) (e m : ℚ) (t : ℤ) :
    (pruneTimestamps (yawnCountUpdate (earUpdate s e) m t) t).last_yawn_alert_time =
      s.last_yawn_alert_time := by
  rw [pruneTimestamps_last_yawn_alert_time, yawnCountUpdate_last_yawn_alert_time,
    earUpdate_last_yawn_alert_time]

/-- Claim C2: on a face frame whose pruned timestamp list has more than 3
entries, the yawn alert fires and stamps `now` when no previous alert exists or
the cooldown has elapsed, and otherwise is set to false with the last-alert time
unchanged; with at most 3 surviving timestamps the flag is set to false. -/
theorem yawn_alert_gating (s : DetectorState) (e m : ℚ) (t : ℤ) :
    ((stepFace s e m t).yawn_timestamps.length > 3 →
        ((s.last_yawn_alert_time = none →
            (stepFace s e m t).yawn_alert_active = true ∧
              (stepFace s e m t).last_yawn_alert_time = some t) ∧
          ∀ last, s.last_yawn_alert_time = some last →
            ((YAWN_ALERT_COOLDOWN < t - last →
                (stepFace s e m t).yawn_alert_active = true ∧
                  (stepFace s e m t).last_yawn_alert_time = some t) ∧
              (t - last ≤ YAWN_ALERT_COOLDOWN →
                (stepFace s e m t).yawn_alert_active = false ∧
                  (stepFace s e m t).last_yawn_alert_time = some last)))) ∧
      ((stepFace s e m t).yawn_timestamps.length ≤ 3 →
        (stepFace s e m t).yawn_alert_active = false) := by
  have hts : (stepFace s e m t).yawn_timestamps =
      (pruneTimestamps (yawnCountUpdate (earUpdate s e) m t) t).yawn_timestamps :=
    yawnAlertUpdate_yawn_timestamps _ t
  constructor
  · intro hlen
    rw [hts] at hlen
    constructor
    · intro hnone
      exact yawnAlertUpdate_fires _ t hlen (Or.inl ((preAlert_last_time s e m t).trans hnone))
    · intro last hsome
      constructor
      · intro hlt
        exact yawnAlertUpdate_fires _ t hlen
          (Or.inr ⟨last, (preAlert_last_time s e m t).trans hsome, hlt⟩)
      · intro hle
        exact yawnAlertUpdate_blocked _ t last hlen
          ((preAlert_last_time s e m t).trans hsome) hle
  · intro hlen
    rw [hts] at hlen
    exact yawnAlertUpdate_few _ t (by omega)

/-- A sample state holding four fresh yawn timestamps and no previous alert. -/
def fourYawnState : DetectorState :=
  { eye_counter := 0
    yawn_frame_counter := 0
    yawn_timestamps := [0, 0, 0, 0]
    ear_alert_active := false
    yawn_alert_active := false
    last_yawn_alert_time := none }

/-- A sample state right after a 15-frame open-mouth run, mouth still open. -/
def completedRunState : DetectorState :=
  { eye_counter := 0
    yawn_frame_counter := 15
    yawn_timestamps := []
    ear_alert_active := false
    yawn_alert_active := false
    last_yawn_alert_time := none }

/-- Witness for C2: a state holding four fresh timestamps and no previous alert
fires the yawn alert and stamps the current time. -/
theorem yawn_alert_gating_witness :
    (stepFace fourYawnState 1 0 0).yawn_alert_active = true ∧
      (stepFace fourYawnState 1 0 0).last_yawn_alert_time = some 0 :=
  ((yawn_alert_gating fourYawnState 1 0 0).1 (by decide)).1 rfl

/-- One open-mouth face frame increments the yawn run counter. -/
theorem stepFace_open_counter (s : DetectorState) (e m : ℚ) (t : ℤ)
    (hm : m > MAR_THRESHOLD) :
    (stepFace s e m t).yawn_frame_counter = s.yawn_frame_counter + 1 := by
  have h1 : (stepFace s e m t).yawn_frame_counter =
      (yawnCountUpdate (earUpdate s e) m t).yawn_frame_counter := by
    unfold stepFace process_frame
    rw [yawnAlertUpdate_yawn_frame_counter, pruneTimestamps_yawn_frame_counter]
  rw [h1]
  unfold yawnCountUpdate
  rw [if_pos hm]
  show (earUpdate s e).yawn_frame_counter + 1 = s.yawn_frame_counter + 1
  rw [earUpdate_yawn_frame_counter]

/-- A run of open-mouth face frames adds its length to the yawn run counter. -/
theorem runFaceFrames_open (opens : List (ℚ × ℚ × ℤ)) :
    ∀ s : DetectorState, (∀ f ∈ opens, f.2.1 > MAR_THRESHOLD) →
      (runFaceFrames s opens).yawn_frame_counter = s.yawn_frame_counter + opens.length := by
  induction opens with
  | nil => intro s _; rfl
  | cons f rest ih =>
      intro s hb
      have hf := hb f (List.mem_cons_self f rest)
      have hrw : runFaceFrames s (f :: rest) =
          runFaceFrames (stepFace s f.1 f.2.1 f.2.2) rest := rfl
      rw [hrw, ih _ (fun g hg => hb g (List.mem_cons_of_mem f hg)),
        stepFace_open_counter s f.1 f.2.1 f.2.2 hf, List.length_cons]
      omega

/-- Claim C3: on a mouth-closed face frame the run counter is reset to 0; the
current time is appended (and survives pruning) exactly when the completed
open-mouth run had reached `YAWN_CONSEC_FRAMES`, and nothing is appended for a
shorter run; and a run of open frames makes the counter equal its length. -/
theorem yawn_count_on_closed (s : DetectorState) (e m : ℚ) (t : ℤ)
    (hm : m ≤ MAR_THRESHOLD) :
    (stepFace s e m t).yawn_frame_counter = 0 ∧
      (YAWN_CONSEC_FRAMES ≤ s.yawn_frame_counter →
          (stepFace s e m t).yawn_timestamps =
            s.yawn_timestamps.filter (fun u => decide (t - u ≤ YAWN_TIME_WINDOW)) ++ [t]) ∧
      (s.yawn_frame_counter < YAWN_CONSEC_FRAMES →
          (stepFace s e m t).yawn_timestamps =
            s.yawn_timestamps.filter (fun u => decide (t - u ≤ YAWN_TIME_WINDOW))) ∧
      (∀ (s₀ : DetectorState) (opens : List (ℚ × ℚ × ℤ)),
          (∀ f ∈ opens, f.2.1 > MAR_THRESHOLD) →
          (runFaceFrames s₀ opens).yawn_frame_counter =
            s₀.yawn_frame_counter + opens.length) := by
  have hnm : ¬ (m > MAR_THRESHOLD) := not_lt.mpr hm
  refine ⟨?_, ?_, ?_, fun s₀ opens hb => runFaceFrames_open opens s₀ hb⟩
  · have h1 : (stepFace s e m t).yawn_frame_counter =
        (yawnCountUpdate (earUpdate s e) m t).yawn_frame_counter := by
      unfold stepFace process_frame
      rw [yawnAlertUpdate_yawn_frame_counter, pruneTimestamps_yawn_frame_counter]
    rw [h1]
    unfold yawnCountUpdate
    rw [if_neg hnm]
  · intro hge
    rw [stepFace_yawn_timestamps]
    unfold yawnCountUpdate
    rw [if_neg hnm]
    show ((if (earUpdate s e).yawn_frame_counter ≥ YAWN_CONSEC_FRAMES then
        (earUpdate s e).yawn_timestamps ++ [t] else (earUpdate s e).yawn_timestamps).filter
          (fun u => decide (t - u ≤ YAWN_TIME_WINDOW))) = _
    rw [earUpdate_yawn_frame_counter, earUpdate_yawn_timestamps, if_pos hge,
      List.filter_append]
    have hsingle : [t].filter (fun u => decide (t - u ≤ YAWN_TIME_WINDOW)) = [t] := by
      rw [List.filter_cons,
        decide_eq_true (show t - t ≤ YAWN_TIME_WINDOW by
          rw [sub_self]; unfold YAWN_TIME_WINDOW; omega)]
      simp
    rw [hsingle]
  · intro hlt
    rw [stepFace_yawn_timestamps]
    unfold yawnCountUpdate
    rw [if_neg hnm]
    show ((if (earUpdate s e).yawn_frame_counter ≥ YAWN_CONSEC_FRAMES then
        (earUpdate s e).yawn_timestamps ++ [t] else (earUpdate s e).yawn_timestamps).filter
          (fun u => decide (t - u ≤ YAWN_TIME_WINDOW))) = _
    rw [earUpdate_yawn_frame_counter, earUpdate_yawn_timestamps,
      if_neg (by omega : ¬ s.yawn_frame_counter ≥ YAWN_CONSEC_FRAMES)]

/-- Witness for C3: a completed 15-frame run followed by a closed frame resets
the counter. -/
theorem yawn_count_on_closed_witness :
    (stepFace completedRunState 1 0 0).yawn_frame_counter = 0 :=
  (yawn_count_on_closed completedRunState 1 0 0 (by decide)).1

/-- Claim C4: after any face frame at time `now = t`, every timestamp remaining
in `yawn_timestamps` is within `YAWN_TIME_WINDOW` of `t` — also on the frame
that appended a new timestamp. -/
theorem timestamps_within_window (s : DetectorState) (e m : ℚ) (t u : ℤ)
    (hu : u ∈ (stepFace s e m t).yawn_timestamps) : t - u ≤ YAWN_TIME_WINDOW := by
  rw [stepFace_yawn_timestamps] at hu
  exact of_decide_eq_true (List.mem_filter.mp hu).2

/-- Witness for C4 on the frame that appends a fresh timestamp. -/
theorem timestamps_within_window_witness : (0:ℤ) - 0 ≤ YAWN_TIME_WINDOW :=
  timestamps_within_window completedRunState 1 0 0 0 (by decide)

set_option maxRecDepth 100000 in
/-- Claim C5: on every face frame the returned label is determined by the
post-update flags in priority order (both, eyes only, yawns only, none); 50
frames at `ear = 0.10` from the fresh detector label frame 50 with
"DROWSINESS DETECTED (EYES)" and a 51st frame at `ear = 0.40` yields the empty
label. -/
theorem alert_label_priority :
    (∀ (s : DetectorState) (e m : ℚ) (t : ℤ),
        ((stepFace s e m t).ear_alert_active = true →
            (stepFace s e m t).yawn_alert_active = true →
            (stepOut s e m t).alert_text = "DROWSINESS DETECTED (EYES & YAWNS)") ∧
          ((stepFace s e m t).ear_alert_active = true →
            (stepFace s e m t).yawn_alert_active = false →
            (stepOut s e m t).alert_text = "DROWSINESS DETECTED (EYES)") ∧
          ((stepFace s e m t).ear_alert_active = false →
            (stepFace s e m t).yawn_alert_active = true →
            (stepOut s e m t).alert_text = "DROWSINESS DETECTED (YAWNS)") ∧
          ((stepFace s e m t).ear_alert_active = false →
            (stepFace s e m t).yawn_alert_active = false →
            (stepOut s e m t).alert_text = "")) ∧
      (stepOut (runFaceFrames initState (List.replicate 49 (mkRat 1 10, (0:ℚ), (0:ℤ))))
          (mkRat 1 10) 0 0).alert_text = "DROWSINESS DETECTED (EYES)" ∧
      (stepOut (runFaceFrames initState (List.replicate 50 (mkRat 1 10, (0:ℚ), (0:ℤ))))
          (mkRat 2 5) 0 0).alert_text = "" := by
  refine ⟨?_, ?_, ?_⟩
  · intro s e m t
    have hout : (stepOut s e m t).alert_text = alertLabel (stepFace s e m t) := rfl
    refine ⟨?_, ?_, ?_, ?_⟩ <;> intro h1 h2 <;> rw [hout] <;> unfold alertLabel <;>
      rw [h1, h2] <;> rfl
  · decide
  · decide

/-- Witness for C5 with both flags inactive on the fresh detector. -/
theorem alert_label_priority_witness :
    (stepOut initState (mkRat 1 2) 0 0).alert_text = "" :=
  (alert_label_priority.1 initState (mkRat 1 2) 0 0).2.2.2 (by decide) (by decide)

/-- Claim C6: a frame in which no face is detected returns `ear` and `mar` absent
and the empty alert label, and leaves every field of the detector state unchanged
(in particular `eye_counter` is not reset). -/
theorem noFace_frame_is_noop (s : DetectorState) (current_time : ℤ) :
    process_frame s .noFace current_time =
      (s, { ear := none, mar := none, alert_text := "" }) := rfl

/-! ### The signal extractors

Landmarks are the integer pixel points built at detection.py line 101, modelled
as a total function from landmark index to a point (an out-of-range index is a
collaborator contract violation the source does not defend against, spec §4.1).
`np.linalg.norm` of a 2-D integer difference vector is the Euclidean distance
in `ℝ`. -/

/-- Source constant `LEFT_EYE = [33, 160, 158, 133, 153, 144]` (detection.py line 13). -/
def LEFT_EYE : Fin 6 → ℕ := ![33, 160, 158, 133, 153, 144]

/-- Source constant `RIGHT_EYE = [362, 385, 387, 263, 373, 380]` (detection.py line 14). -/
def RIGHT_EYE : Fin 6 → ℕ := ![362, 385, 387, 263, 373, 380]

/-- Source constant `MOUTH_TOP_LIP = 13` (detection.py line 17). -/
def MOUTH_TOP_LIP : ℕ := 13

/-- Source constant `MOUTH_BOTTOM_LIP = 14` (detection.py line 18). -/
def MOUTH_BOTTOM_LIP : ℕ := 14

/-- Source constant `MOUTH_LEFT_CORNER = 78` (detection.py line 19). -/
def MOUTH_LEFT_CORNER : ℕ := 78

/-- Source constant `MOUTH_RIGHT_CORNER = 308` (detection.py line 20). -/
def MOUTH_RIGHT_CORNER : ℕ := 308

/-- Euclidean distance `np.linalg.norm(p - q)` for 2-D integer pixel points. -/
noncomputable def euclDist (p q : ℤ × ℤ) : ℝ :=
  Real.sqrt (((p.1 - q.1 : ℤ) : ℝ) ^ 2 + ((p.2 - q.2 : ℤ) : ℝ) ^ 2)

/-- The method `DrowsinessDetector.calculate_ear` (detection.py lines 51-68), with the
source's intermediate values `A`, `B`, `C` and operand order. -/
noncomputable def calculate_ear (eye_points : Fin 6 → ℕ) (landmarks : ℕ → ℤ × ℤ) : ℝ :=
  let p1 := landmarks (eye_points 1)
  let p2 := landmarks (eye_points 5)
  let A := euclDist p2 p1
  let p3 := landmarks (eye_points 2)
  let p4 := landmarks (eye_points 4)
  let B := euclDist p4 p3
  let p5 := landmarks (eye_points 0)
  let p6 := landmarks (eye_points 3)
  let C := euclDist p6 p5
  (A + B) / (2 * C)

/-- The method `DrowsinessDetector.calculate_mar` (detection.py lines 70-84). -/
noncomputable def calculate_mar (landmarks : ℕ → ℤ × ℤ) : ℝ :=
  let top_lip := landmarks MOUTH_TOP_LIP
  let bottom_lip := landmarks MOUTH_BOTTOM_LIP
  let left_corner := landmarks MOUTH_LEFT_CORNER
  let right_corner := landmarks MOUTH_RIGHT_CORNER
  let vertical_dist := euclDist top_lip bottom_lip
  let horizontal_dist := euclDist left_corner right_corner
  vertical_dist / horizontal_dist

/-- The whole-face eye ratio reported per frame (detection.py lines 104-106):
the average of the left-eye and right-eye ratios. -/
noncomputable def frameEar (landmarks : ℕ → ℤ × ℤ) : ℝ :=
  (calculate_ear LEFT_EYE landmarks + calculate_ear RIGHT_EYE landmarks) / 2

theorem euclDist_comm (p q : ℤ × ℤ) : euclDist p q = euclDist q p := by
  unfold euclDist
  congr 1
  push_cast
  ring

theorem euclDist_nonneg (p q : ℤ × ℤ) : 0 ≤ euclDist p q := Real.sqrt_nonneg _

/-- Claim C7: `calculate_ear` is the EAR formula over the six fixed eye indices,
`calculate_mar` is the lip-distance over corner-distance quotient over the four
fixed mouth indices, and the reported whole-face eye ratio is the arithmetic mean
of the two per-eye ratios.  All three are pure functions of the landmark set. -/
theorem extractor_formulas :
    (∀ (eye_points : Fin 6 → ℕ) (landmarks : ℕ → ℤ × ℤ),
        calculate_ear eye_points landmarks =
          (euclDist (landmarks (eye_points 1)) (landmarks (eye_points 5)) +
              euclDist (landmarks (eye_points 2)) (landmarks (eye_points 4))) /
            (2 * euclDist (landmarks (eye_points 0)) (landmarks (eye_points 3)))) ∧
      (∀ landmarks : ℕ → ℤ × ℤ,
        calculate_mar landmarks =
          euclDist (landmarks MOUTH_TOP_LIP) (landmarks MOUTH_BOTTOM_LIP) /
            euclDist (landmarks MOUTH_LEFT_CORNER) (landmarks MOUTH_RIGHT_CORNER)) ∧
      (∀ landmarks : ℕ → ℤ × ℤ,
        frameEar landmarks =
          (calculate_ear LEFT_EYE landmarks + calculate_ear RIGHT_EYE landmarks) / 2) := by
  refine ⟨?_, fun L => rfl, fun L => rfl⟩
  intro pts L
  show (euclDist (L (pts 5)) (L (pts 1)) + euclDist (L (pts 4)) (L (pts 2))) /
      (2 * euclDist (L (pts 3)) (L (pts 0))) = _
  rw [euclDist_comm (L (pts 5)) (L (pts 1)), euclDist_comm (L (pts 4)) (L (pts 2)),
    euclDist_comm (L (pts 3)) (L (pts 0))]

/-- Claim C8: both ratios are non-negative for every landmark set.  In this
embedding division is the real-field operation totalised with `x / 0 = 0`, so
the property holds with no precondition, including at coincident horizontal
landmarks where the source's float division would not produce a finite value. -/
theorem ratios_nonneg (eye_points : Fin 6 → ℕ) (landmarks : ℕ → ℤ × ℤ) :
    0 ≤ calculate_ear eye_points landmarks ∧ 0 ≤ calculate_mar landmarks := by
  constructor
  · unfold calculate_ear
    exact div_nonneg (add_nonneg (euclDist_nonneg _ _) (euclDist_nonneg _ _))
      (mul_nonneg (by norm_num) (euclDist_nonneg _ _))
  · unfold calculate_mar
    exact div_nonneg (euclDist_nonneg _ _) (euclDist_nonneg _ _)

/-- Claim C9: with the mouth corners fixed (positive horizontal separation), the
mouth ratio is monotone in the Euclidean distance between the lip landmarks. -/
theorem mar_monotone_in_lip_separation (L1 L2 : ℕ → ℤ × ℤ)
    (hleft : L1 MOUTH_LEFT_CORNER = L2 MOUTH_LEFT_CORNER)
    (hright : L1 MOUTH_RIGHT_CORNER = L2 MOUTH_RIGHT_CORNER)
    (hpos : 0 < euclDist (L1 MOUTH_LEFT_CORNER) (L1 MOUTH_RIGHT_CORNER))
    (hv : euclDist (L1 MOUTH_TOP_LIP) (L1 MOUTH_BOTTOM_LIP) ≤
      euclDist (L2 MOUTH_TOP_LIP) (L2 MOUTH_BOTTOM_LIP)) :
    calculate_mar L1 ≤ calculate_mar L2 := by
  unfold calculate_mar
  rw [← hleft, ← hright]
  exact (div_le_div_iff_of_pos_right hpos).mpr hv

/-- Witness for C9: corners at `(0,0)` and `(2,0)`, lips one pixel apart versus
two pixels apart. -/
theorem mar_monotone_in_lip_separation_witness :
    calculate_mar
        (fun n => if n = 13 then (0, 0) else if n = 14 then (0, 1)
          else if n = 308 then (2, 0) else (0, 0)) ≤
      calculate_mar
        (fun n => if n = 13 then (0, 0) else if n = 14 then (0, 2)
          else if n = 308 then (2, 0) else (0, 0)) :=
  mar_monotone_in_lip_separation _ _ rfl rfl
    (by unfold euclDist MOUTH_LEFT_CORNER MOUTH_RIGHT_CORNER
        norm_num)
    (by unfold euclDist MOUTH_TOP_LIP MOUTH_BOTTOM_LIP
        norm_num)
